import Mathlib

/-!
Verification of the OpenGradient action provider
(coinbase_agentkit/action_providers/opengradient/opengradient_action_provider.py
and schemas.py) against its natural-language specification.

The provider is embedded shallowly: Python values become `PyVal`, the raw
argument mapping becomes an association list, Python exceptions become
`PyExc`, and the external OpenGradient SDK becomes a record of functions
(`Sdk`) so that theorems can quantify over every SDK behavior.  Each action
method's try-block becomes a `BodyResult`-valued function that also records
the SDK calls it made, and the except-Exception handler becomes `catchWith`.
-/

namespace OpenGradientProvider

/-- Python runtime values that can appear in an action's raw argument mapping
or be passed on to the SDK (the provider is dynamically typed, so an argument
value can have any of these shapes). -/
inductive PyVal where
  | str (s : String)
  | float (q : Rat)
  | int (n : Int)
  | pyNone
deriving DecidableEq

/-- A raw argument mapping, as the agent framework hands it to an action:
a finite string-keyed dictionary, modelled as an association list (Python
dict keys are unique; lookup takes the first binding). -/
abbrev Args := List (String × PyVal)

/-- The Python exceptions the provider's except-blocks can observe: a NameError
from an unbound bare name, a KeyError from a dictionary subscript, or an
exception raised by the external SDK call. -/
inductive PyExc where
  | nameError (n : String)
  | keyError (k : String)
  | sdkError (msg : String)
deriving DecidableEq

/-- str(e) for each modelled exception, as CPython renders it: a NameError
prints "name 'x' is not defined", a KeyError prints the repr of the missing
key, and an SDK exception prints its own message. -/
def excStr : PyExc → String
  | .nameError n => "name '" ++ n ++ "' is not defined"
  | .keyError k => "'" ++ k ++ "'"
  | .sdkError m => m

/-- The Python subscript args[k]: the stored value, or a KeyError. -/
def subscript (args : Args) (k : String) : Except PyExc PyVal :=
  match args.find? (fun p => p.1 == k) with
  | some p => Except.ok p.2
  | none => Except.error (PyExc.keyError k)

/-- Whether the raw argument mapping has a binding for k. -/
def hasKey (args : Args) (k : String) : Bool :=
  args.any (fun p => p.1 == k)

/-- A float-like value inside a ModelOutput numbers tensor.  `strRepr` is the
string the Python runtime produces for str(x); it is carried as data of the
SDK's response because the concrete numeric type (a numpy scalar) belongs to
the excluded external SDK, which owns its printed form. -/
structure NumVal where
  val : Rat
  strRepr : String
deriving DecidableEq

/-- The SDK's read_workflow_result response: the numbers, strings and jsons
tensor mappings.  `reprStr` is str(result), rendered by the external SDK's
ModelOutput class, so it too is data of the response. -/
structure ModelOutput where
  numbers : List (String × NumVal)
  strings : List (String × String)
  jsons : List (String × String)
  reprStr : String
deriving DecidableEq

/-- One chat message as the prompt actions build it: a role and a content
value taken straight from the raw argument mapping. -/
structure ChatMessage where
  role : String
  content : PyVal
deriving DecidableEq

/-- The SDK's llm_chat response: chat_output is a string-to-string mapping. -/
structure ChatResponse where
  chat_output : List (String × String)
deriving DecidableEq

/-- The og.LLM model identifiers the provider binds at action definition. -/
inductive LLM where
  | DOBBY_UNHINGED_3_1_8B
  | QWEN_2_5_72B_INSTRUCT
deriving DecidableEq

/-- One behavior of a single external SDK call: return a value, or raise an
exception carrying a message. -/
inductive SdkResult (α : Type) where
  | ok (a : α)
  | raise (msg : String)

/-- A behavior of the external OpenGradient SDK: what each operation returns
or raises, as a function of its arguments.  Theorems quantify over this. -/
structure Sdk where
  read_workflow_result : PyVal → SdkResult ModelOutput
  llm_chat : LLM → List ChatMessage → PyVal → PyVal → SdkResult ChatResponse

/-- A record of one SDK call made during an invocation, with the arguments it
was made with. -/
inductive SdkCall where
  | read (contract_address : PyVal)
  | chat (model_cid : LLM) (messages : List ChatMessage)
      (temperature : PyVal) (max_tokens : PyVal)
deriving DecidableEq

/-- How an action's try-block ended (the returned string, or the exception
that escaped it) together with the SDK calls it made before ending (calls made
before a raise have already happened). -/
abbrev BodyResult := Except PyExc String × List SdkCall

/-- The except-Exception handler shared by all six actions: a body that raised
is converted to the action's context string followed by str(e); a body that
returned a string passes through unchanged.  No exception escapes. -/
def catchWith (ctx : String) (r : BodyResult) : String × List SdkCall :=
  match r.1 with
  | Except.ok s => (s, r.2)
  | Except.error e => (ctx ++ excStr e, r.2)

/-- The names bound at the top level of opengradient_action_provider.py by its
imports and definitions.  The Python statement that imports the module
coinbase_agentkit.action_providers.opengradient.constants by its full dotted
path and no alias binds only the root name `coinbase_agentkit`; the bare name
`constants` is never bound in this module. -/
def providerModuleGlobals : List String :=
  ["Any", "Web3", "Network", "EvmWalletProvider", "create_action",
   "ActionProvider", "OpenGradientReadWorkflow", "os", "og",
   "coinbase_agentkit", "OpenGradientActionProvider",
   "opengradient_action_provider"]

/-- Modelled from the spec: the fixed well-known contract address constants of
the constants module (constants.py itself is not among the staged source
files; the spec calls them "fixed well-known contract addresses... embedded
per forecast action", and schemas.py documents the three deployed addresses).
Unreachable from the provider as imported, because the bare name `constants`
is unbound there (see `constantsAttr`). -/
def constantsModule : String → String
  | "ETH_USDT_ONE_HOUR_VOLATILITY_ADDRESS" =>
      "0xFC5d8EDba288f9330Af324555F1A729303382725"
  | "SUI_USDT_SIX_HOUR_FORECAST_ADDRESS" =>
      "0x080881b65427Da162CA0995fB23710Db4E8d85Cb"
  | "SUI_USDT_THIRTY_MIN_FORECAST_ADDRES" =>
      "0x7259f3a882B40aF80F7ff51D6023f23DD16b4465"
  | _ => ""

/-- The Python expression constants.ATTR evaluated inside the provider module:
a NameError unless the bare name `constants` is bound in the module's
globals (it is not). -/
def constantsAttr (attr : String) : Except PyExc String :=
  if providerModuleGlobals.contains "constants" then
    Except.ok (constantsModule attr)
  else
    Except.error (PyExc.nameError "constants")

/-- The subscript m[k] on a numbers tensor mapping: the value, or KeyError. -/
def numbersItem (m : List (String × NumVal)) (k : String) : Except PyExc NumVal :=
  match m.find? (fun p => p.1 == k) with
  | some p => Except.ok p.2
  | none => Except.error (PyExc.keyError k)

/-- Lookup in a string-to-string mapping (a Python dict of strings). -/
def lookupStr (m : List (String × String)) (k : String) : Option String :=
  (m.find? (fun p => p.1 == k)).map (fun p => p.2)

/-- The Python d.get(k, dflt) on a string-to-string mapping. -/
def dictGetD (m : List (String × String)) (k dflt : String) : String :=
  match lookupStr m k with
  | some v => v
  | none => dflt

/-- Try-block of read_workflow (provider lines 76-80): look up
args['contract_address'], call og.read_workflow_result on it, and return
str(result). -/
def read_workflow_body (args : Args) (sdk : Sdk) : BodyResult :=
  match subscript args "contract_address" with
  | Except.error e => (Except.error e, [])
  | Except.ok contract_address =>
    match sdk.read_workflow_result contract_address with
    | SdkResult.raise m =>
        (Except.error (PyExc.sdkError m), [SdkCall.read contract_address])
    | SdkResult.ok result =>
        (Except.ok result.reprStr, [SdkCall.read contract_address])

/-- The read_workflow action (provider lines 66-82): the try-block wrapped by
except Exception returning "Error reading workflow: {e!s}". -/
def read_workflow (args : Args) (sdk : Sdk) : String × List SdkCall :=
  catchWith "Error reading workflow: " (read_workflow_body args sdk)

/-- Try-block of read_workflow_eth_usdt_one_hour_volatility_forecast
(provider lines 113-117): evaluate constants.ETH_USDT_ONE_HOUR_VOLATILITY_ADDRESS
(a NameError: the bare name constants is unbound), call
og.read_workflow_result on it, and return str(result.numbers["Y"]). -/
def read_workflow_eth_usdt_one_hour_volatility_forecast_body
    (args : Args) (sdk : Sdk) : BodyResult :=
  match constantsAttr "ETH_USDT_ONE_HOUR_VOLATILITY_ADDRESS" with
  | Except.error e => (Except.error e, [])
  | Except.ok contract_address =>
    match sdk.read_workflow_result (PyVal.str contract_address) with
    | SdkResult.raise m =>
        (Except.error (PyExc.sdkError m),
         [SdkCall.read (PyVal.str contract_address)])
    | SdkResult.ok result =>
      match numbersItem result.numbers "Y" with
      | Except.error e =>
          (Except.error e, [SdkCall.read (PyVal.str contract_address)])
      | Except.ok y =>
          (Except.ok y.strRepr, [SdkCall.read (PyVal.str contract_address)])

/-- The read_workflow_eth_usdt_one_hour_volatility_forecast action (provider
lines 103-119): the try-block wrapped by except Exception returning
"Error reading one_hour_eth_usdt_volatility workflow: {e!s}". -/
def read_workflow_eth_usdt_one_hour_volatility_forecast
    (args : Args) (sdk : Sdk) : String × List SdkCall :=
  catchWith "Error reading one_hour_eth_usdt_volatility workflow: "
    (read_workflow_eth_usdt_one_hour_volatility_forecast_body args sdk)

/-- Try-block of read_workflow_sui_usdt_six_hour_return_forecast (provider
lines 150-154): evaluate constants.SUI_USDT_SIX_HOUR_FORECAST_ADDRESS (a
NameError: the bare name constants is unbound), call og.read_workflow_result,
and return str(result.numbers["destandardized_prediction"]). -/
def read_workflow_sui_usdt_six_hour_return_forecast_body
    (args : Args) (sdk : Sdk) : BodyResult :=
  match constantsAttr "SUI_USDT_SIX_HOUR_FORECAST_ADDRESS" with
  | Except.error e => (Except.error e, [])
  | Except.ok contract_address =>
    match sdk.read_workflow_result (PyVal.str contract_address) with
    | SdkResult.raise m =>
        (Except.error (PyExc.sdkError m),
         [SdkCall.read (PyVal.str contract_address)])
    | SdkResult.ok result =>
      match numbersItem result.numbers "destandardized_prediction" with
      | Except.error e =>
          (Except.error e, [SdkCall.read (PyVal.str contract_address)])
      | Except.ok y =>
          (Except.ok y.strRepr, [SdkCall.read (PyVal.str contract_address)])

/-- The read_workflow_sui_usdt_six_hour_return_forecast action (provider lines
140-156): the try-block wrapped by except Exception returning the copy-pasted
handler string "Error reading one_hour_eth_usdt_volatility workflow: {e!s}". -/
def read_workflow_sui_usdt_six_hour_return_forecast
    (args : Args) (sdk : Sdk) : String × List SdkCall :=
  catchWith "Error reading one_hour_eth_usdt_volatility workflow: "
    (read_workflow_sui_usdt_six_hour_return_forecast_body args sdk)

/-- Try-block of read_workflow_sui_usdt_30_minute_return_forecast (provider
lines 187-191): evaluate constants.SUI_USDT_THIRTY_MIN_FORECAST_ADDRES (a
NameError: the bare name constants is unbound), call og.read_workflow_result,
and return str(result.numbers["destandardized_prediction"]). -/
def read_workflow_sui_usdt_30_minute_return_forecast_body
    (args : Args) (sdk : Sdk) : BodyResult :=
  match constantsAttr "SUI_USDT_THIRTY_MIN_FORECAST_ADDRES" with
  | Except.error e => (Except.error e, [])
  | Except.ok contract_address =>
    match sdk.read_workflow_result (PyVal.str contract_address) with
    | SdkResult.raise m =>
        (Except.error (PyExc.sdkError m),
         [SdkCall.read (PyVal.str contract_address)])
    | SdkResult.ok result =>
      match numbersItem result.numbers "destandardized_prediction" with
      | Except.error e =>
          (Except.error e, [SdkCall.read (PyVal.str contract_address)])
      | Except.ok y =>
          (Except.ok y.strRepr, [SdkCall.read (PyVal.str contract_address)])

/-- The read_workflow_sui_usdt_30_minute_return_forecast action (provider
lines 177-193): the try-block wrapped by except Exception returning the
copy-pasted handler string
"Error reading one_hour_eth_usdt_volatility workflow: {e!s}". -/
def read_workflow_sui_usdt_30_minute_return_forecast
    (args : Args) (sdk : Sdk) : String × List SdkCall :=
  catchWith "Error reading one_hour_eth_usdt_volatility workflow: "
    (read_workflow_sui_usdt_30_minute_return_forecast_body args sdk)

/-- Try-block of prompt_dobby (provider lines 237-252): look up args["prompt"],
args["temperature"] and args["max_tokens"] directly from the raw mapping,
build the single user-role message, call og.llm_chat with the Dobby model
identifier, and return chat_output.get("content", the fixed missing-content
string for the dobby model). -/
def prompt_dobby_body (args : Args) (sdk : Sdk) : BodyResult :=
  match subscript args "prompt" with
  | Except.error e => (Except.error e, [])
  | Except.ok prompt =>
  match subscript args "temperature" with
  | Except.error e => (Except.error e, [])
  | Except.ok temperature =>
  match subscript args "max_tokens" with
  | Except.error e => (Except.error e, [])
  | Except.ok max_tokens =>
    let message : List ChatMessage := [{ role := "user", content := prompt }]
    match sdk.llm_chat LLM.DOBBY_UNHINGED_3_1_8B message temperature max_tokens with
    | SdkResult.raise m =>
        (Except.error (PyExc.sdkError m),
         [SdkCall.chat LLM.DOBBY_UNHINGED_3_1_8B message temperature max_tokens])
    | SdkResult.ok llm_output =>
        (Except.ok (dictGetD llm_output.chat_output "content"
            "Error: 'content' was not found in the chat output for the dobby model"),
         [SdkCall.chat LLM.DOBBY_UNHINGED_3_1_8B message temperature max_tokens])

/-- The prompt_dobby action (provider lines 227-254): the try-block wrapped by
except Exception returning the copy-pasted handler string
"Error reading one_hour_eth_usdt_volatility workflow: {e!s}". -/
def prompt_dobby (args : Args) (sdk : Sdk) : String × List SdkCall :=
  catchWith "Error reading one_hour_eth_usdt_volatility workflow: "
    (prompt_dobby_body args sdk)

/-- Try-block of prompt_qwen (provider lines 303-318): as prompt_dobby but
with the Qwen model identifier and the qwen missing-content string (the
unreachable `return ""` after the return on line 319 is dead code). -/
def prompt_qwen_body (args : Args) (sdk : Sdk) : BodyResult :=
  match subscript args "prompt" with
  | Except.error e => (Except.error e, [])
  | Except.ok prompt =>
  match subscript args "temperature" with
  | Except.error e => (Except.error e, [])
  | Except.ok temperature =>
  match subscript args "max_tokens" with
  | Except.error e => (Except.error e, [])
  | Except.ok max_tokens =>
    let message : List ChatMessage := [{ role := "user", content := prompt }]
    match sdk.llm_chat LLM.QWEN_2_5_72B_INSTRUCT message temperature max_tokens with
    | SdkResult.raise m =>
        (Except.error (PyExc.sdkError m),
         [SdkCall.chat LLM.QWEN_2_5_72B_INSTRUCT message temperature max_tokens])
    | SdkResult.ok llm_output =>
        (Except.ok (dictGetD llm_output.chat_output "content"
            "Error: 'content' was not found in the chat output for the qwen model"),
         [SdkCall.chat LLM.QWEN_2_5_72B_INSTRUCT message temperature max_tokens])

/-- The prompt_qwen action (provider lines 293-321): the try-block wrapped by
except Exception returning the copy-pasted handler string
"Error reading one_hour_eth_usdt_volatility workflow: {e!s}". -/
def prompt_qwen (args : Args) (sdk : Sdk) : String × List SdkCall :=
  catchWith "Error reading one_hour_eth_usdt_volatility workflow: "
    (prompt_qwen_body args sdk)

/-- The Network descriptor owned by the external agent framework; the provider
only reads protocol_family (spec section 3: "{protocol_family: string, ...}"). -/
structure Network where
  protocol_family : String
deriving DecidableEq

/-- supports_network (provider lines 323-333): an equality test on the
network's protocol_family. -/
def supports_network (network : Network) : Bool :=
  network.protocol_family == "evm"

/-- Python s.startswith(p): the characters of p are a prefix of those of s. -/
def strStartsWith (s p : String) : Bool :=
  p.data.isPrefixOf s.data

/-- Whether pat occurs as a contiguous run inside a list. -/
def infixOfList {α : Type} [BEq α] (pat : List α) : List α → Bool
  | [] => pat.isEmpty
  | a :: rest => pat.isPrefixOf (a :: rest) || infixOfList pat rest

/-- Python p in s on strings: p occurs as a contiguous substring of s. -/
def strContains (s p : String) : Bool :=
  infixOfList p.data s.data

/-- The primitive types a schema field can declare. -/
inductive FieldType where
  | string
  | float
  | int
deriving DecidableEq

/-- One field declaration of an input schema: its name, primitive type,
required flag and declared default, mirroring a pydantic Field. -/
structure FieldDecl where
  name : String
  ftype : FieldType
  required : Bool
  dflt : Option PyVal
deriving DecidableEq

/-- schemas.py OpenGradientReadWorkflow (lines 16-19): the single required
string field contract_address. -/
def OpenGradientReadWorkflow : List FieldDecl :=
  [{ name := "contract_address", ftype := FieldType.string, required := true,
     dflt := none }]

/-- schemas.py OpenGradientPromptDobby (lines 42-48): required string prompt,
optional float temperature with default 0.95, optional int max_tokens with
default 2048. -/
def OpenGradientPromptDobby : List FieldDecl :=
  [{ name := "prompt", ftype := FieldType.string, required := true, dflt := none },
   { name := "temperature", ftype := FieldType.float, required := false,
     dflt := some (PyVal.float (19/20)) },
   { name := "max_tokens", ftype := FieldType.int, required := false,
     dflt := some (PyVal.int 2048) }]

/-- schemas.py OpenGradientPromptQwen (lines 50-56): the same field
declarations as the dobby schema. -/
def OpenGradientPromptQwen : List FieldDecl :=
  [{ name := "prompt", ftype := FieldType.string, required := true, dflt := none },
   { name := "temperature", ftype := FieldType.float, required := false,
     dflt := some (PyVal.float (19/20)) },
   { name := "max_tokens", ftype := FieldType.int, required := false,
     dflt := some (PyVal.int 2048) }]

/-- The declared default of a schema field, when the schema has the field and
the field has one. -/
def fieldDflt (s : List FieldDecl) (k : String) : Option PyVal :=
  match s.find? (fun f => f.name == k) with
  | some f => f.dflt
  | none => none

/-- The six actions registered by the create_action decorators, in declaration
order, each with the schema its decorator binds: every one of the six binds
schema = OpenGradientReadWorkflow (provider lines 37-64, 84-101, 121-138,
158-175, 195-225 and 256-291). -/
def registeredActions : List (String × List FieldDecl) :=
  [("read_workflow", OpenGradientReadWorkflow),
   ("read_workflow_eth_usdt_one_hour_volatility_forecast", OpenGradientReadWorkflow),
   ("read_workflow_sui_usdt_six_hour_return_forecast", OpenGradientReadWorkflow),
   ("read_workflow_sui_usdt_30_minute_return_forecast", OpenGradientReadWorkflow),
   ("prompt_dobby", OpenGradientReadWorkflow),
   ("prompt_qwen", OpenGradientReadWorkflow)]

/-- A concrete SDK behavior for witnesses: every call raises. -/
def sdkRaise : Sdk where
  read_workflow_result := fun _ => SdkResult.raise "Failed to read workflow"
  llm_chat := fun _ _ _ _ => SdkResult.raise "Failed to chat"

/-- A concrete SDK behavior whose llm_chat returns the sample chat response of
the provider's tests. -/
def sdkChatSample : Sdk where
  read_workflow_result := fun _ => SdkResult.raise "Failed to read workflow"
  llm_chat := fun _ _ _ _ =>
    SdkResult.ok { chat_output := [("content", "Sample model response")] }

/-- A concrete SDK behavior whose llm_chat returns an empty chat_output. -/
def sdkChatEmpty : Sdk where
  read_workflow_result := fun _ => SdkResult.raise "Failed to read workflow"
  llm_chat := fun _ _ _ _ => SdkResult.ok { chat_output := [] }

/-- A concrete SDK behavior whose workflow read returns a result with the
numbers tensor mapping "Y" to 0.0678, as in the provider's tests. -/
def sdkNumbersY : Sdk where
  read_workflow_result := fun _ =>
    SdkResult.ok { numbers := [("Y", { val := 339/5000, strRepr := "0.0678" })],
                   strings := [], jsons := [],
                   reprStr := "ModelOutput(numbers=..., strings=..., jsons=...)" }
  llm_chat := fun _ _ _ _ => SdkResult.raise "Failed to chat"

/-- A list prefix stays a prefix of any extension on the right. -/
theorem isPrefixOf_append_right {α : Type} [BEq α] (l a b : List α)
    (h : l.isPrefixOf a = true) : l.isPrefixOf (a ++ b) = true := by
  induction l generalizing a with
  | nil => simp [List.isPrefixOf]
  | cons x xs ih =>
    cases a with
    | nil => simp [List.isPrefixOf] at h
    | cons y ys =>
      simp only [List.cons_append, List.isPrefixOf, Bool.and_eq_true] at h ⊢
      exact ⟨h.1, ih ys h.2⟩

/-- A string that starts with "Error" still does after appending a suffix. -/
theorem strStartsWith_append (s t : String)
    (h : strStartsWith s "Error" = true) :
    strStartsWith (s ++ t) "Error" = true := by
  unfold strStartsWith at h ⊢
  rw [String.data_append]
  exact isPrefixOf_append_right _ _ _ h

/-- On a body that returned a string, the handler passes it through. -/
theorem catchWith_ok (ctx : String) (r : BodyResult) (s : String)
    (h : r.1 = Except.ok s) : (catchWith ctx r).1 = s := by
  simp [catchWith, h]

/-- On a body that raised, any handler whose context string starts with
"Error" produces a string that starts with "Error". -/
theorem catchWith_error (ctx : String) (r : BodyResult) (e : PyExc)
    (hc : strStartsWith ctx "Error" = true) (h : r.1 = Except.error e) :
    strStartsWith (catchWith ctx r).1 "Error" = true := by
  simp only [catchWith, h]
  exact strStartsWith_append _ _ hc

/-- A key the raw mapping lacks makes its subscript a KeyError. -/
theorem subscript_of_hasKey_false (args : Args) (k : String)
    (h : hasKey args k = false) :
    subscript args k = Except.error (PyExc.keyError k) := by
  unfold subscript
  have h2 : args.find? (fun p => p.1 == k) = none :=
    List.find?_eq_none.mpr (List.any_eq_false.mp h)
  rw [h2]

/-- The dispatch-boundary property of one action: for every argument mapping
and every SDK behavior, the invocation returns the try-block's string when
the try-block returns, and, when the try-block raises any exception, returns
a string that starts with the token "Error"; either way a string comes back
and no exception escapes. -/
def boundaryOk (invoke : Args → Sdk → String × List SdkCall)
    (body : Args → Sdk → BodyResult) : Prop :=
  ∀ args sdk,
    (∀ s, (body args sdk).1 = Except.ok s → (invoke args sdk).1 = s) ∧
    (∀ e, (body args sdk).1 = Except.error e →
      strStartsWith (invoke args sdk).1 "Error" = true)

/-- C1: at the claim's own input — an SDK read that returns a result whose
numbers mapping holds "Y" = 0.0678 — the ETH/USDT one-hour volatility
forecast action does not return the percentage string "6.7800000000%" after
one read of the fixed address constant: the bare name constants is unbound,
so the action returns the NameError string and performs no SDK read at all. -/
theorem C1_eth_vol_forecast_failing_input :
    read_workflow_eth_usdt_one_hour_volatility_forecast [] sdkNumbersY =
      ("Error reading one_hour_eth_usdt_volatility workflow: name 'constants' is not defined",
       []) ∧
    (read_workflow_eth_usdt_one_hour_volatility_forecast [] sdkNumbersY).1 ≠
      "6.7800000000%" := by
  refine ⟨rfl, by decide⟩

/-- C2: every one of the six actions — the generic workflow read, the three
forecast reads and the two prompt actions — satisfies the dispatch boundary:
for every argument mapping and every SDK behavior the invocation returns the
try-block's string on success, and on any exception a string that starts with
the token "Error"; no exception escapes. -/
theorem C2_every_action_string_boundary :
    boundaryOk read_workflow read_workflow_body ∧
    boundaryOk read_workflow_eth_usdt_one_hour_volatility_forecast
      read_workflow_eth_usdt_one_hour_volatility_forecast_body ∧
    boundaryOk read_workflow_sui_usdt_six_hour_return_forecast
      read_workflow_sui_usdt_six_hour_return_forecast_body ∧
    boundaryOk read_workflow_sui_usdt_30_minute_return_forecast
      read_workflow_sui_usdt_30_minute_return_forecast_body ∧
    boundaryOk prompt_dobby prompt_dobby_body ∧
    boundaryOk prompt_qwen prompt_qwen_body := by
  refine ⟨?_, ?_, ?_, ?_, ?_, ?_⟩ <;>
  · intro args sdk
    constructor
    · intro s h
      exact catchWith_ok _ _ _ h
    · intro e h
      exact catchWith_error _ _ _ (by decide) h

/-- Witness for C2 at a concrete input: the generic read with an empty
argument mapping and an SDK that raises — the body ends in a KeyError, and
the invocation returns a string starting with "Error". -/
theorem C2_every_action_string_boundary_witness :
    strStartsWith (read_workflow [] sdkRaise).1 "Error" = true :=
  (C2_every_action_string_boundary.1 [] sdkRaise).2
    (PyExc.keyError "contract_address") rfl

/-- C3: at the claim's own input — an argument mapping that lacks "prompt" —
the prompt actions do not produce a string containing "Error prompting dobby
model" / "Error prompting qwen model"; both return the copy-pasted
"Error reading one_hour_eth_usdt_volatility workflow:" string carrying the
KeyError for 'prompt' (and do not raise). -/
theorem C3_prompt_missing_prompt_failing_input :
    prompt_dobby [("temperature", PyVal.float (1/2)), ("max_tokens", PyVal.int 100)]
        sdkChatSample =
      ("Error reading one_hour_eth_usdt_volatility workflow: 'prompt'", []) ∧
    strContains
      (prompt_dobby [("temperature", PyVal.float (1/2)), ("max_tokens", PyVal.int 100)]
        sdkChatSample).1 "Error prompting dobby model" = false ∧
    prompt_qwen [("temperature", PyVal.float (1/2)), ("max_tokens", PyVal.int 100)]
        sdkChatSample =
      ("Error reading one_hour_eth_usdt_volatility workflow: 'prompt'", []) ∧
    strContains
      (prompt_qwen [("temperature", PyVal.float (1/2)), ("max_tokens", PyVal.int 100)]
        sdkChatSample).1 "Error prompting qwen model" = false := by
  refine ⟨rfl, by decide, rfl, by decide⟩

/-- C4: at the claim's own input — the SUI/USDT forecast actions invoked while
the SDK read raises — the returned string is the copy-pasted
"Error reading one_hour_eth_usdt_volatility workflow:" message (for the
NameError hit before the SDK is even reached); it does not contain the
action's own workflow name. -/
theorem C4_sui_error_names_wrong_workflow :
    read_workflow_sui_usdt_six_hour_return_forecast [] sdkRaise =
      ("Error reading one_hour_eth_usdt_volatility workflow: name 'constants' is not defined",
       []) ∧
    strContains (read_workflow_sui_usdt_six_hour_return_forecast [] sdkRaise).1
      "Error reading sui_usdt_six_hour_return_forecast workflow:" = false ∧
    read_workflow_sui_usdt_30_minute_return_forecast [] sdkRaise =
      ("Error reading one_hour_eth_usdt_volatility workflow: name 'constants' is not defined",
       []) ∧
    strContains (read_workflow_sui_usdt_30_minute_return_forecast [] sdkRaise).1
      "Error reading sui_usdt_30_minute_return_forecast workflow:" = false := by
  refine ⟨rfl, by decide, rfl, by decide⟩

/-- C5 counterexample: supports_network is false at the concrete network whose
protocol_family is "solana", refuting "supports_network returns true for
every Network value, unconditionally". -/
theorem C5_supports_network_counterexample :
    ¬ (supports_network { protocol_family := "solana" } = true) := by
  decide

/-- C5 amended: supports_network is a pure predicate of the network that
returns true exactly for a network whose protocol_family is "evm" and false
for every other protocol_family (the EVM-restricted policy, not the
unconditional one). -/
theorem C5_supports_network_evm_only :
    (∀ n : Network, n.protocol_family = "evm" → supports_network n = true) ∧
    (∀ n : Network, n.protocol_family ≠ "evm" → supports_network n = false) := by
  constructor
  · intro n h
    simp [supports_network, h]
  · intro n h
    have h2 : (n.protocol_family == "evm") = false := beq_eq_false_iff_ne.mpr h
    simpa [supports_network] using h2

/-- Witness for C5's amended theorem at concrete inputs: an "evm" network is
supported, a "solana" network is not. -/
theorem C5_supports_network_evm_only_witness :
    supports_network { protocol_family := "evm" } = true ∧
    supports_network { protocol_family := "solana" } = false :=
  ⟨C5_supports_network_evm_only.1 { protocol_family := "evm" } rfl,
   C5_supports_network_evm_only.2 { protocol_family := "solana" } (by decide)⟩

/-- C6: with arguments prompt = p, temperature = t, max_tokens = m and an SDK
chat response whose chat_output contains "content" = c, each prompt action
returns exactly c and makes exactly one SDK chat call, carrying the model
identifier bound at its definition, the single user-role message holding p,
and the given temperature and max_tokens. -/
theorem C6_prompt_success (p t m : PyVal) (c : String) (sdk : Sdk)
    (respD respQ : ChatResponse)
    (hD : sdk.llm_chat LLM.DOBBY_UNHINGED_3_1_8B
        [{ role := "user", content := p }] t m = SdkResult.ok respD)
    (hDc : lookupStr respD.chat_output "content" = some c)
    (hQ : sdk.llm_chat LLM.QWEN_2_5_72B_INSTRUCT
        [{ role := "user", content := p }] t m = SdkResult.ok respQ)
    (hQc : lookupStr respQ.chat_output "content" = some c) :
    prompt_dobby [("prompt", p), ("temperature", t), ("max_tokens", m)] sdk =
      (c, [SdkCall.chat LLM.DOBBY_UNHINGED_3_1_8B
            [{ role := "user", content := p }] t m]) ∧
    prompt_qwen [("prompt", p), ("temperature", t), ("max_tokens", m)] sdk =
      (c, [SdkCall.chat LLM.QWEN_2_5_72B_INSTRUCT
            [{ role := "user", content := p }] t m]) := by
  constructor
  · simp [prompt_dobby, prompt_dobby_body, subscript, catchWith, hD, dictGetD, hDc]
  · simp [prompt_qwen, prompt_qwen_body, subscript, catchWith, hQ, dictGetD, hQc]

/-- Witness for C6 at the tests' concrete input: prompt "Test prompt",
temperature 0.5, max_tokens 100 against an SDK answering the sample
response. -/
theorem C6_prompt_success_witness :
    prompt_dobby [("prompt", PyVal.str "Test prompt"),
        ("temperature", PyVal.float (1/2)), ("max_tokens", PyVal.int 100)]
      sdkChatSample =
      ("Sample model response",
       [SdkCall.chat LLM.DOBBY_UNHINGED_3_1_8B
          [{ role := "user", content := PyVal.str "Test prompt" }]
          (PyVal.float (1/2)) (PyVal.int 100)]) :=
  (C6_prompt_success (PyVal.str "Test prompt") (PyVal.float (1/2)) (PyVal.int 100)
    "Sample model response" sdkChatSample
    { chat_output := [("content", "Sample model response")] }
    { chat_output := [("content", "Sample model response")] }
    rfl rfl rfl rfl).1

/-- C7: with valid arguments and an SDK chat response whose chat_output has no
"content" key, each prompt action returns exactly the fixed missing-content
string that names its own model. -/
theorem C7_prompt_missing_content (p t m : PyVal) (sdk : Sdk)
    (respD respQ : ChatResponse)
    (hD : sdk.llm_chat LLM.DOBBY_UNHINGED_3_1_8B
        [{ role := "user", content := p }] t m = SdkResult.ok respD)
    (hDc : lookupStr respD.chat_output "content" = none)
    (hQ : sdk.llm_chat LLM.QWEN_2_5_72B_INSTRUCT
        [{ role := "user", content := p }] t m = SdkResult.ok respQ)
    (hQc : lookupStr respQ.chat_output "content" = none) :
    (prompt_dobby [("prompt", p), ("temperature", t), ("max_tokens", m)] sdk).1 =
      "Error: 'content' was not found in the chat output for the dobby model" ∧
    (prompt_qwen [("prompt", p), ("temperature", t), ("max_tokens", m)] sdk).1 =
      "Error: 'content' was not found in the chat output for the qwen model" := by
  constructor
  · simp [prompt_dobby, prompt_dobby_body, subscript, catchWith, hD, dictGetD, hDc]
  · simp [prompt_qwen, prompt_qwen_body, subscript, catchWith, hQ, dictGetD, hQc]

/-- Witness for C7 at a concrete input: an SDK whose chat_output is empty. -/
theorem C7_prompt_missing_content_witness :
    (prompt_dobby [("prompt", PyVal.str "Test prompt"),
        ("temperature", PyVal.float (1/2)), ("max_tokens", PyVal.int 100)]
      sdkChatEmpty).1 =
      "Error: 'content' was not found in the chat output for the dobby model" :=
  (C7_prompt_missing_content (PyVal.str "Test prompt") (PyVal.float (1/2))
    (PyVal.int 100) sdkChatEmpty { chat_output := [] } { chat_output := [] }
    rfl rfl rfl rfl).1

/-- C8: for every argument mapping and every SDK behavior, each of the three
fixed-address forecast actions hits the NameError for the unbound bare name
constants inside its try-block, returns the corresponding error string —
which begins with "Error reading one_hour_eth_usdt_volatility workflow:" —
and makes no SDK call at all, so a successful forecast value can never be
returned. -/
theorem C8_forecast_actions_never_succeed :
    ∀ (args : Args) (sdk : Sdk),
      read_workflow_eth_usdt_one_hour_volatility_forecast args sdk =
        ("Error reading one_hour_eth_usdt_volatility workflow: name 'constants' is not defined",
         []) ∧
      read_workflow_sui_usdt_six_hour_return_forecast args sdk =
        ("Error reading one_hour_eth_usdt_volatility workflow: name 'constants' is not defined",
         []) ∧
      read_workflow_sui_usdt_30_minute_return_forecast args sdk =
        ("Error reading one_hour_eth_usdt_volatility workflow: name 'constants' is not defined",
         []) ∧
      strStartsWith
        "Error reading one_hour_eth_usdt_volatility workflow: name 'constants' is not defined"
        "Error reading one_hour_eth_usdt_volatility workflow:" = true := by
  intro args sdk
  exact ⟨rfl, rfl, rfl, by decide⟩

/-- C9: all six registered actions declare OpenGradientReadWorkflow — whose
only field is the required string contract_address — as their input schema,
and no declared schema has a prompt, temperature or max_tokens field. -/
theorem C9_all_actions_declare_read_workflow_schema :
    registeredActions.length = 6 ∧
    (registeredActions.all fun p => decide (p.2 = OpenGradientReadWorkflow)) = true ∧
    OpenGradientReadWorkflow =
      [{ name := "contract_address", ftype := FieldType.string, required := true,
         dflt := none }] ∧
    (registeredActions.all fun p => p.2.all fun f =>
      decide (f.name ≠ "prompt" ∧ f.name ≠ "temperature" ∧ f.name ≠ "max_tokens"))
      = true := by
  refine ⟨rfl, by decide, rfl, by decide⟩

/-- C10: the prompt actions read "temperature" and "max_tokens" directly from
the raw argument mapping: for every mapping that has "prompt" but lacks
"temperature" or lacks "max_tokens", both prompt actions return an error
string and make no SDK call, even though the declared schemas default
temperature to 0.95 and max_tokens to 2048 — the declared defaults are never
substituted on the invoke path. -/
theorem C10_prompt_defaults_never_applied (args : Args) (sdk : Sdk)
    (hp : hasKey args "prompt" = true)
    (hmiss : hasKey args "temperature" = false ∨ hasKey args "max_tokens" = false) :
    (strStartsWith (prompt_dobby args sdk).1 "Error" = true ∧
      (prompt_dobby args sdk).2 = []) ∧
    (strStartsWith (prompt_qwen args sdk).1 "Error" = true ∧
      (prompt_qwen args sdk).2 = []) ∧
    fieldDflt OpenGradientPromptDobby "temperature" = some (PyVal.float (19/20)) ∧
    fieldDflt OpenGradientPromptDobby "max_tokens" = some (PyVal.int 2048) ∧
    fieldDflt OpenGradientPromptQwen "temperature" = some (PyVal.float (19/20)) ∧
    fieldDflt OpenGradientPromptQwen "max_tokens" = some (PyVal.int 2048) := by
  have keyD : ∃ e, prompt_dobby_body args sdk = (Except.error e, []) := by
    unfold prompt_dobby_body
    cases hpr : subscript args "prompt" with
    | error e => exact ⟨e, by simp⟩
    | ok pv =>
      rcases hmiss with hm | hm
      · rw [subscript_of_hasKey_false args "temperature" hm]
        exact ⟨PyExc.keyError "temperature", by simp⟩
      · cases ht : subscript args "temperature" with
        | error e => exact ⟨e, by simp⟩
        | ok tv =>
          rw [subscript_of_hasKey_false args "max_tokens" hm]
          exact ⟨PyExc.keyError "max_tokens", by simp⟩
  have keyQ : ∃ e, prompt_qwen_body args sdk = (Except.error e, []) := by
    unfold prompt_qwen_body
    cases hpr : subscript args "prompt" with
    | error e => exact ⟨e, by simp⟩
    | ok pv =>
      rcases hmiss with hm | hm
      · rw [subscript_of_hasKey_false args "temperature" hm]
        exact ⟨PyExc.keyError "temperature", by simp⟩
      · cases ht : subscript args "temperature" with
        | error e => exact ⟨e, by simp⟩
        | ok tv =>
          rw [subscript_of_hasKey_false args "max_tokens" hm]
          exact ⟨PyExc.keyError "max_tokens", by simp⟩
  obtain ⟨eD, heD⟩ := keyD
  obtain ⟨eQ, heQ⟩ := keyQ
  refine ⟨⟨?_, ?_⟩, ⟨?_, ?_⟩, rfl, rfl, rfl, rfl⟩
  · exact catchWith_error _ _ _ (by decide) (by rw [heD])
  · show (catchWith _ (prompt_dobby_body args sdk)).2 = []
    rw [heD]
    rfl
  · exact catchWith_error _ _ _ (by decide) (by rw [heQ])
  · show (catchWith _ (prompt_qwen_body args sdk)).2 = []
    rw [heQ]
    rfl

/-- Witness for C10 at a concrete input: only "prompt" supplied. -/
theorem C10_prompt_defaults_never_applied_witness :
    strStartsWith
      (prompt_dobby [("prompt", PyVal.str "Test prompt")] sdkChatSample).1
      "Error" = true :=
  ((C10_prompt_defaults_never_applied [("prompt", PyVal.str "Test prompt")]
    sdkChatSample rfl (Or.inl rfl)).1).1

end OpenGradientProvider
